import Mathlib

/-!
# Flow-AI: shallow embedding of the wizard core

This file embeds the conversational plan-elicitation wizard of the Flow-AI
repository (the `WorkflowWizard` component's handlers, the `App` workflow-store
handlers, and the decode/post-processing steps of the Gemini service wrappers)
as executable Lean definitions, and proves or refutes the specification claims
about them.

The external generative capability is modelled as an oracle argument: each
handler takes, besides the current wizard state, the (already decoded) response
that the external call would have produced, or a marker that the call threw.
-/

namespace FlowAI

/-- `WorkflowStatus` from `types.ts`. -/
inductive WorkflowStatus where
  | Draft
  | Generated
  | Deployed
deriving DecidableEq

/-- `WorkflowStep` from `types.ts` (one step of a plan). -/
structure WorkflowStep where
  id : String
  action : String
  service : String
deriving DecidableEq

/-- `WorkflowPlan` from `types.ts`. -/
structure WorkflowPlan where
  name : String
  description : String
  steps : List WorkflowStep
deriving DecidableEq

/-- `Workflow` from `types.ts`.  `plan : WorkflowPlan | null` and
`script : string | null` are modelled as `Option`s. -/
structure Workflow where
  id : String
  name : String
  description : String
  prompt : String
  plan : Option WorkflowPlan
  script : Option String
  status : WorkflowStatus
  createdAt : Nat
deriving DecidableEq

/-- Message role (`'user' | 'model'` in the wizard's conversation state). -/
inductive Role where
  | user
  | model
deriving DecidableEq

/-- One entry of the wizard's `conversationHistory` state. -/
structure ChatMessage where
  role : Role
  text : String
deriving DecidableEq

/-- `WizardStep` enumeration from `types.ts` (`Describe=0, Review=1, Deploy=2`). -/
inductive WizardStep where
  | Describe
  | Review
  | Deploy
deriving DecidableEq

/-- JavaScript `String.prototype.trim`: drop leading and trailing whitespace.
Implemented structurally over the character list so that it evaluates by
kernel reduction. -/
def jsTrim (s : String) : String :=
  ⟨((s.data.dropWhile Char.isWhitespace).reverse.dropWhile Char.isWhitespace).reverse⟩

/-- One global-replace pass over a character list, fuelled by the length of
the input so that the recursion is structural.  With `fuel ≥ l.length` and a
non-empty pattern this is JavaScript `replace(/pat/g, rep)`. -/
def replaceAux (pat rep : List Char) : Nat → List Char → List Char
  | 0, l => l
  | _ + 1, [] => []
  | fuel + 1, c :: rest =>
    if pat ≠ [] ∧ pat.isPrefixOf (c :: rest) then
      rep ++ replaceAux pat rep fuel ((c :: rest).drop pat.length)
    else
      c :: replaceAux pat rep fuel rest

/-- JavaScript `s.replace(/pat/g, rep)` for a non-empty literal pattern. -/
def jsReplace (s pat rep : String) : String :=
  ⟨replaceAux pat.data rep.data s.data.length s.data⟩

/-- JavaScript `Array.prototype.join(' ')`. -/
def joinSpace : List String → String
  | [] => ""
  | [x] => x
  | x :: xs => x ++ " " ++ joinSpace xs

/-- JavaScript truthiness of a nullable string (`null` and `""` are falsy).
Used where the source branches on `workflow.script ? ... : ...`. -/
def strTruthy : Option String → Bool
  | none => false
  | some s => s ≠ ""

/-- The `useState` initializer of `WorkflowWizard` (part_000 lines 209-213):
`workflow.script ? Deploy : workflow.plan ? Review : Describe`.
A plan is an object, so its truthiness is presence; the script is a string,
so its truthiness is presence and non-emptiness. -/
def initialStep (w : Workflow) : WizardStep :=
  if strTruthy w.script then .Deploy
  else if w.plan.isSome then .Review
  else .Describe

/-- The mutable state of one `WorkflowWizard` session: the derived `step`
state variable, the input buffer `promptText`, the conversation history, the
pending clarification question, and the workflow record as last written
through `onUpdate`. -/
structure WizardState where
  step : WizardStep
  promptText : String
  conversationHistory : List ChatMessage
  clarificationQuestion : Option String
  workflow : Workflow
deriving DecidableEq

/-- Mounting the wizard on a workflow (`WorkflowWizard` initial state:
`step` from the derived initializer, `promptText` from `workflow.prompt`,
empty conversation, no pending question). -/
def initWizard (w : Workflow) : WizardState :=
  { step := initialStep w
    promptText := w.prompt
    conversationHistory := []
    clarificationQuestion := none
    workflow := w }

/-- The decoded result of `generateAutomationPlan` (`PlanGenerationResult` in
`geminiService.ts`): `isValid` as its truthiness, `question` and `plan` as
optional fields (`undefined`/`null` become `none`). -/
structure PlanGenerationResult where
  isValid : Bool
  question : Option String
  plan : Option WorkflowPlan
deriving DecidableEq

/-- Outcome of the external plan-generation call as seen by
`handleGeneratePlan`: either the decoded object, or `malformed` when
`generateAutomationPlan` threw (`JSON.parse` failure, transport failure). -/
inductive PlanResponse where
  | malformed
  | ok (r : PlanGenerationResult)
deriving DecidableEq

/-- Classification of what one `handleGeneratePlan` invocation did.
`noOp` is the silent early return on empty input (before any external call);
`error` is the propagated exception of a malformed response; `silentIgnore`
is the fall-through when the decoded result is neither an accepted plan nor
a non-empty question. -/
inductive PlanOutcome where
  | noOp
  | accepted
  | clarified
  | silentIgnore
  | error
deriving DecidableEq

/-- `handleGeneratePlan` (part_000 lines 293-330), as a function of the
current state and the oracle response.  Mirrors the source:
empty trimmed input returns silently; the pending question is cleared before
the call; `result.isValid && result.plan` accepts (flattening the whole
conversation plus the current utterance, space-joined, into `prompt` and
setting `status` to `Draft`); otherwise a truthy `result.question` appends the
user/model turn pair, records the question and clears the input; otherwise
nothing further happens. A thrown decode error propagates past the `finally`
with no further state writes. -/
def handleGeneratePlan (s : WizardState) (resp : PlanResponse) :
    WizardState × PlanOutcome :=
  if jsTrim s.promptText = "" then (s, .noOp) else
  let s1 : WizardState := { s with clarificationQuestion := none }
  match resp with
  | .malformed => (s1, .error)
  | .ok r =>
    match r.isValid, r.plan, r.question with
    | true, some p, _ =>
      let finalPromptContext :=
        joinSpace
          ((s.conversationHistory ++
              [({ role := .user, text := s.promptText } : ChatMessage)]).map
            (fun m => m.text))
      ({ s1 with
          workflow := { s.workflow with
            prompt := finalPromptContext
            name := p.name
            description := p.description
            plan := some p
            status := .Draft }
          step := .Review }, .accepted)
    | _, _, some q =>
      if q = "" then (s1, .silentIgnore)
      else
        ({ s1 with
            conversationHistory :=
              s.conversationHistory ++
                [({ role := .user, text := s.promptText } : ChatMessage),
                 ({ role := .model, text := q } : ChatMessage)]
            clarificationQuestion := some q
            promptText := "" }, .clarified)
    | _, _, none => (s1, .silentIgnore)

/-- Post-processing of the code-generation output (`generateScript` in
`geminiService.ts` line 121): strip the markdown fence markers, then trim. -/
def cleanScript (t : String) : String :=
  jsTrim (jsReplace (jsReplace t "```javascript" "") "```" "")

/-- Outcome of the external code-generation call as seen by
`handleGenerateScript`: the raw response text, or `failure` when the call
threw. -/
inductive ScriptResponse where
  | failure
  | ok (raw : String)
deriving DecidableEq

/-- `handleGenerateScript` (part_000 lines 332-340): no-op without a plan;
on a thrown call the `try`/`finally` leaves all state untouched; on success
the cleaned code (even when empty) is stored as `script`, `status` becomes
`Generated`, and the step advances to `Deploy`. -/
def handleGenerateScript (s : WizardState) (resp : ScriptResponse) : WizardState :=
  match s.workflow.plan with
  | none => s
  | some _ =>
    match resp with
    | .failure => s
    | .ok raw =>
      let code := cleanScript raw
      { s with
          workflow := { s.workflow with script := some code, status := .Generated }
          step := .Deploy }

/-- The refine button of the Review panel (part_000 line 543):
`onClick={() => setStep(WizardStep.Describe)}`. -/
def handleRefine (s : WizardState) : WizardState :=
  { s with step := .Describe }

/-- `handleCreateNew` (App.tsx lines 88-103): the freshly created workflow
record, parameterised by the generated id and the creation time. -/
def handleCreateNew (id : String) (now : Nat) : Workflow :=
  { id := id
    name := ""
    description := ""
    prompt := ""
    plan := none
    script := none
    status := .Draft
    createdAt := now }

/-- `handleDeleteWorkflow` (App.tsx lines 110-112):
`prev.filter(w => w.id !== id)`. -/
def handleDeleteWorkflow (id : String) (ws : List Workflow) : List Workflow :=
  ws.filter (fun w => w.id ≠ id)

/-- `handleUpdateWorkflow` (App.tsx lines 114-116):
`prev.map(w => w.id === updated.id ? updated : w)`. -/
def handleUpdateWorkflow (updated : Workflow) (ws : List Workflow) : List Workflow :=
  ws.map (fun w => if w.id = updated.id then updated else w)

/-- The core-exposed operations of one wizard session (spec section 6):
submitting an utterance (which types it into the input buffer and invokes
`handleGeneratePlan`), requesting synthesis, and refining from Review. -/
inductive Event where
  | submitUtterance (u : String) (resp : PlanResponse)
  | requestSynthesis (resp : ScriptResponse)
  | refine
deriving DecidableEq

/-- One event against the wizard state. -/
def stepEvent (s : WizardState) : Event → WizardState
  | .submitUtterance u r => (handleGeneratePlan { s with promptText := u } r).1
  | .requestSynthesis r => handleGenerateScript s r
  | .refine => handleRefine s

/-- A whole session: fold the events over the state. -/
def runEvents (s : WizardState) (es : List Event) : WizardState :=
  es.foldl stepEvent s

/-! ## Concrete fixtures used by witnesses and counterexamples -/

/-- A concrete accepted plan (the round-trip example of the spec). -/
def planGmail : WorkflowPlan :=
  { name := "Invoice Notifier"
    description := "Polls Gmail for invoices"
    steps := [{ id := "1", action := "Poll Gmail for label Invoices", service := "Gmail" }] }

/-- A second concrete plan, used when a session re-accepts after refining. -/
def planSheets : WorkflowPlan :=
  { name := "Sheet Logger"
    description := "Appends invoice rows to a spreadsheet"
    steps := [{ id := "1", action := "Append a row to the Sheet", service := "Sheets" }] }

/-- A freshly created workflow opened in the wizard. -/
def freshState : WizardState := initWizard (handleCreateNew "wf-1" 0)

/-! ## Branch lemmas for `handleGeneratePlan` -/

/-- Empty (after trimming) input: the handler returns before consulting the
oracle and changes nothing. -/
theorem generatePlan_of_empty (s : WizardState) (r : PlanResponse)
    (h : jsTrim s.promptText = "") :
    handleGeneratePlan s r = (s, .noOp) := by
  simp [handleGeneratePlan, h]

/-- A thrown decode error: the pending question was already cleared, nothing
else is written. -/
theorem generatePlan_malformed (s : WizardState)
    (h : jsTrim s.promptText ≠ "") :
    handleGeneratePlan s .malformed
      = ({ s with clarificationQuestion := none }, .error) := by
  simp [handleGeneratePlan, h]

/-- The accepting branch: the whole conversation plus the current utterance is
flattened (space-joined) into `prompt`, the plan is recorded, status is reset
to `Draft`, the step advances to `Review`. -/
theorem generatePlan_accepted (s : WizardState) (r : PlanGenerationResult)
    (p : WorkflowPlan)
    (h : jsTrim s.promptText ≠ "") (hv : r.isValid = true) (hp : r.plan = some p) :
    handleGeneratePlan s (.ok r) =
      ({ s with
          clarificationQuestion := none
          workflow := { s.workflow with
            prompt := joinSpace ((s.conversationHistory ++
                [({ role := .user, text := s.promptText } : ChatMessage)]).map
              (fun m => m.text))
            name := p.name
            description := p.description
            plan := some p
            status := .Draft }
          step := .Review }, .accepted) := by
  obtain ⟨iv, qq, pp⟩ := r
  simp only at hv hp
  subst hv hp
  simp [handleGeneratePlan, h]

/-- The clarification branch: the user utterance and the model question are
appended to the conversation, the question becomes pending, the input buffer
is cleared; the workflow record is untouched. -/
theorem generatePlan_clarified (s : WizardState) (r : PlanGenerationResult)
    (q : String)
    (h : jsTrim s.promptText ≠ "")
    (hnv : r.isValid = false ∨ r.plan = none)
    (hq : r.question = some q) (hqne : q ≠ "") :
    handleGeneratePlan s (.ok r) =
      ({ s with
          conversationHistory := s.conversationHistory ++
            [({ role := .user, text := s.promptText } : ChatMessage),
             ({ role := .model, text := q } : ChatMessage)]
          clarificationQuestion := some q
          promptText := "" }, .clarified) := by
  obtain ⟨iv, qq, pp⟩ := r
  simp only at hq
  subst hq
  rcases hnv with hnv | hnv <;> simp only at hnv <;> subst hnv
  · cases pp <;> simp [handleGeneratePlan, h, hqne]
  · cases iv <;> simp [handleGeneratePlan, h, hqne]

/-- The fall-through: the result is neither an accepted plan nor a non-empty
question, so nothing at all happens beyond the initial clearing of the
pending question. -/
theorem generatePlan_silent_aux (s : WizardState) (r : PlanGenerationResult)
    (h : jsTrim s.promptText ≠ "")
    (hnv : r.isValid = false ∨ r.plan = none)
    (hq : r.question = none ∨ r.question = some "") :
    handleGeneratePlan s (.ok r)
      = ({ s with clarificationQuestion := none }, .silentIgnore) := by
  obtain ⟨iv, qq, pp⟩ := r
  rcases hnv with hnv | hnv <;> simp only at hnv <;> subst hnv <;>
    rcases hq with hq | hq <;> simp only at hq <;> subst hq
  · cases pp <;> simp [handleGeneratePlan, h]
  · cases pp <;> simp [handleGeneratePlan, h]
  · cases iv <;> simp [handleGeneratePlan, h]
  · cases iv <;> simp [handleGeneratePlan, h]

/-- `handleGeneratePlan` never reads the pending clarification question:
for non-empty input the result is the same whatever question was pending. -/
theorem generatePlan_question_irrel (s : WizardState) (qp : Option String)
    (r : PlanResponse)
    (h : jsTrim s.promptText ≠ "") :
    handleGeneratePlan { s with clarificationQuestion := qp } r
      = handleGeneratePlan s r := by
  obtain ⟨st, pt, ch, cq, wf⟩ := s
  simp only [handleGeneratePlan]
  rw [if_neg h, if_neg h]

/-- `handleGeneratePlan` either leaves the workflow record alone or writes the
accepted-plan update (with `status` reset to `Draft` and `script` untouched). -/
theorem generatePlan_workflow (s : WizardState) (r : PlanResponse) :
    (handleGeneratePlan s r).1.workflow = s.workflow ∨
    ∃ p : WorkflowPlan,
      (handleGeneratePlan s r).1.workflow
        = { s.workflow with
            prompt := joinSpace ((s.conversationHistory ++
                [({ role := .user, text := s.promptText } : ChatMessage)]).map
              (fun m => m.text))
            name := p.name
            description := p.description
            plan := some p
            status := .Draft } := by
  by_cases h : jsTrim s.promptText = ""
  · rw [generatePlan_of_empty s r h]; left; rfl
  · cases r with
    | malformed => rw [generatePlan_malformed s h]; left; rfl
    | ok rr =>
      obtain ⟨iv, qq, pp⟩ := rr
      cases iv with
      | true =>
        cases pp with
        | some p =>
          rw [generatePlan_accepted s ⟨true, qq, some p⟩ p h rfl rfl]
          right; exact ⟨p, rfl⟩
        | none =>
          cases qq with
          | none => rw [generatePlan_silent_aux s _ h (Or.inr rfl) (Or.inl rfl)]; left; rfl
          | some q =>
            by_cases hq : q = ""
            · subst hq
              rw [generatePlan_silent_aux s _ h (Or.inr rfl) (Or.inr rfl)]; left; rfl
            · rw [generatePlan_clarified s _ q h (Or.inr rfl) rfl hq]; left; rfl
      | false =>
        cases qq with
        | none => rw [generatePlan_silent_aux s _ h (Or.inl rfl) (Or.inl rfl)]; left; rfl
        | some q =>
          by_cases hq : q = ""
          · subst hq
            rw [generatePlan_silent_aux s _ h (Or.inl rfl) (Or.inr rfl)]; left; rfl
          · rw [generatePlan_clarified s _ q h (Or.inl rfl) rfl hq]; left; rfl

/-! ## Status/script consistency (for the reachability invariant) -/

/-- The corrected status/script relationship: `Generated` implies a script is
present, and an absent script forces `Draft`.  (The converse — a present
script forcing `Generated` — fails; see the C3 counterexample.) -/
def statusScriptOk (w : Workflow) : Prop :=
  (w.status = .Generated → w.script.isSome) ∧ (w.script = none → w.status = .Draft)

/-- One wizard event preserves the status/script relationship. -/
theorem stepEvent_statusScriptOk (s : WizardState) (e : Event)
    (h : statusScriptOk s.workflow) : statusScriptOk (stepEvent s e).workflow := by
  cases e with
  | submitUtterance u r =>
    rcases generatePlan_workflow { s with promptText := u } r with hw | ⟨p, hw⟩
    · show statusScriptOk (handleGeneratePlan { s with promptText := u } r).1.workflow
      rw [hw]; exact h
    · show statusScriptOk (handleGeneratePlan { s with promptText := u } r).1.workflow
      rw [hw]
      refine ⟨fun hg => ?_, fun _ => rfl⟩
      exact absurd hg (by simp)
  | requestSynthesis r =>
    show statusScriptOk (handleGenerateScript s r).workflow
    cases hp : s.workflow.plan with
    | none => simp [handleGenerateScript, hp]; exact h
    | some p =>
      cases r with
      | failure => simp [handleGenerateScript, hp]; exact h
      | ok raw =>
        simp [handleGenerateScript, hp, statusScriptOk]
  | refine => exact h

/-- The status/script relationship holds along any event sequence. -/
theorem runEvents_statusScriptOk (es : List Event) (s : WizardState)
    (h : statusScriptOk s.workflow) : statusScriptOk (runEvents s es).workflow := by
  induction es generalizing s with
  | nil => exact h
  | cons e rest ih => exact ih (stepEvent s e) (stepEvent_statusScriptOk s e h)

/-! ## Elicitation sessions (for the prompt-flattening property) -/

/-- One clarification round: the utterance submitted and the question the
capability answered with. -/
def clarifyEvents (rounds : List (String × String)) : List Event :=
  rounds.map (fun r => .submitUtterance r.1 (.ok ⟨false, some r.2, none⟩))

/-- A full session: clarification rounds followed by one accepting submission. -/
def sessionEvents (rounds : List (String × String)) (final : String)
    (p : WorkflowPlan) : List Event :=
  clarifyEvents rounds ++ [.submitUtterance final (.ok ⟨true, none, some p⟩)]

/-- The conversation turns produced by a list of clarification rounds. -/
def roundMsgs : List (String × String) → List ChatMessage
  | [] => []
  | (u, q) :: rest =>
    { role := .user, text := u } :: { role := .model, text := q } :: roundMsgs rest

/-- The texts of those turns, user and model alike, in order. -/
def roundTexts : List (String × String) → List String
  | [] => []
  | (u, q) :: rest => u :: q :: roundTexts rest

theorem roundMsgs_map_text (rounds : List (String × String)) :
    (roundMsgs rounds).map (fun m => m.text) = roundTexts rounds := by
  induction rounds with
  | nil => rfl
  | cons r rest ih => obtain ⟨u, q⟩ := r; simp [roundMsgs, roundTexts, ih]

/-- Running the clarification rounds appends exactly the user/model turn pair
of each round to the conversation, and leaves the workflow record alone. -/
theorem runClarify_state (rounds : List (String × String)) :
    ∀ s : WizardState,
    (∀ r ∈ rounds, jsTrim r.1 ≠ "" ∧ r.2 ≠ "") →
    (runEvents s (clarifyEvents rounds)).conversationHistory
        = s.conversationHistory ++ roundMsgs rounds ∧
    (runEvents s (clarifyEvents rounds)).workflow = s.workflow := by
  induction rounds with
  | nil => intro s _; simp [clarifyEvents, runEvents, roundMsgs]
  | cons r rest ih =>
    intro s hr
    obtain ⟨u, q⟩ := r
    have h1 : jsTrim u ≠ "" := (hr (u, q) (by simp)).1
    have h2 : q ≠ "" := (hr (u, q) (by simp)).2
    have hstep : stepEvent s (.submitUtterance u (.ok ⟨false, some q, none⟩))
        = { s with
            conversationHistory := s.conversationHistory ++
              [({ role := .user, text := u } : ChatMessage),
               ({ role := .model, text := q } : ChatMessage)]
            clarificationQuestion := some q
            promptText := "" } := by
      show (handleGeneratePlan { s with promptText := u } _).1 = _
      rw [generatePlan_clarified { s with promptText := u } _ q h1 (Or.inl rfl) rfl h2]
    have hrun : runEvents s (clarifyEvents ((u, q) :: rest))
        = runEvents (stepEvent s (.submitUtterance u (.ok ⟨false, some q, none⟩)))
            (clarifyEvents rest) := rfl
    rw [hrun, hstep]
    obtain ⟨ihh, ihw⟩ := ih _ (fun x hx => hr x (List.mem_cons_of_mem _ hx))
    rw [ihh, ihw]
    simp [roundMsgs, List.append_assoc]

/-! ## Claim C1 -/

/-- Claim C1, counterexample.  One clarification round ("a" answered with the
question "q") followed by an accepting utterance "b" persists the prompt
"a q b": the assistant question "q" is part of the persisted prompt, so the
prompt is NOT the concatenation of the user utterances alone ("a b" or "ab"). -/
theorem c1_counterexample :
    (runEvents freshState
      [.submitUtterance "a" (.ok ⟨false, some "q", none⟩),
       .submitUtterance "b" (.ok ⟨true, none, some planGmail⟩)]).workflow.prompt
        = "a q b" ∧
    ("a q b" : String) ≠ joinSpace ["a", "b"] ∧
    ("a q b" : String) ≠ "a" ++ "b" := by
  decide

/-- Claim C1, amended.  For every session of clarification rounds followed by
one acceptance, the persisted prompt is the space-joined concatenation, in
order, of EVERY conversation turn — each user utterance followed by the
assistant question it received — ending with the accepting utterance. -/
theorem c1_prompt_flattens_all_turns (s : WizardState)
    (rounds : List (String × String)) (final : String) (p : WorkflowPlan)
    (hh : s.conversationHistory = [])
    (hr : ∀ r ∈ rounds, jsTrim r.1 ≠ "" ∧ r.2 ≠ "")
    (hf : jsTrim final ≠ "") :
    (runEvents s (sessionEvents rounds final p)).workflow.prompt
      = joinSpace (roundTexts rounds ++ [final]) := by
  have hsplit : runEvents s (sessionEvents rounds final p)
      = stepEvent (runEvents s (clarifyEvents rounds))
          (.submitUtterance final (.ok ⟨true, none, some p⟩)) := by
    simp [sessionEvents, runEvents, List.foldl_append]
  rw [hsplit]
  obtain ⟨hist, _⟩ := runClarify_state rounds s hr
  rw [hh] at hist
  simp only [List.nil_append] at hist
  show (handleGeneratePlan
      { runEvents s (clarifyEvents rounds) with promptText := final } _).1.workflow.prompt
    = _
  rw [generatePlan_accepted _ _ p hf rfl rfl]
  simp [hist, roundMsgs_map_text]

/-- Claim C1, witness: a one-round session evaluated concretely. -/
theorem c1_witness :
    freshState.conversationHistory = [] ∧
    (∀ r ∈ [("Notify me about invoices", "Which email provider?")],
      jsTrim r.1 ≠ "" ∧ r.2 ≠ "") ∧
    jsTrim "Gmail, daily" ≠ "" ∧
    (runEvents freshState
        (sessionEvents [("Notify me about invoices", "Which email provider?")]
          "Gmail, daily" planGmail)).workflow.prompt
      = joinSpace
          (roundTexts [("Notify me about invoices", "Which email provider?")]
            ++ ["Gmail, daily"]) :=
  ⟨rfl, by decide, by decide,
    c1_prompt_flattens_all_turns freshState
      [("Notify me about invoices", "Which email provider?")] "Gmail, daily"
      planGmail rfl (by decide) (by decide)⟩

/-! ## Claim C2 -/

/-- Modelled from the spec: the step table as the claim words it —
`(plan absent, *) → Describe`, `(present, absent) → Review`,
`(present, present) → Deploy`. -/
def specClaimedStep (planPresent scriptPresent : Bool) : WizardStep :=
  if planPresent then (if scriptPresent then .Deploy else .Review)
  else .Describe

/-- Modelled from the spec, amended: `Deploy` whenever a non-empty script is
present (regardless of plan), else `Review` when a plan is present, else
`Describe`. -/
def stepOfFlags (planPresent scriptTruthy : Bool) : WizardStep :=
  if scriptTruthy then .Deploy
  else if planPresent then .Review
  else .Describe

/-- A workflow carrying a script but no plan. -/
def wScriptNoPlan : Workflow :=
  { handleCreateNew "wf-c2" 0 with script := some "function run()" }

/-- Claim C2, counterexample.  On a workflow with a script but no plan the
derived step is `Deploy`, while the claim's table (`plan absent → Describe`
regardless of script) demands `Describe`: the source checks the script first. -/
theorem c2_counterexample :
    initialStep wScriptNoPlan = WizardStep.Deploy ∧
    specClaimedStep wScriptNoPlan.plan.isSome wScriptNoPlan.script.isSome
      = WizardStep.Describe ∧
    WizardStep.Deploy ≠ WizardStep.Describe := by
  decide

/-- Claim C2, amended.  The derived wizard step is a pure function of the pair
(plan present, script present-and-non-empty): `Deploy` whenever the script is
truthy regardless of plan, else `Review` when a plan is present, else
`Describe`; no other part of the workflow affects it. -/
theorem c2_step_pure_function (w : Workflow) :
    initialStep w = stepOfFlags w.plan.isSome (strTruthy w.script) := rfl

/-! ## Claim C3 -/

/-- Claim C3, counterexample.  Create, accept a plan, synthesise, then accept
a refined plan: the re-acceptance resets `status` to `Draft` but retains the
previously generated script, so `status = Generated iff script present`
fails on a reachable workflow. -/
theorem c3_counterexample :
    (runEvents (initWizard (handleCreateNew "wf-c3x" 0))
        [.submitUtterance "Email me Gmail invoices daily"
            (.ok ⟨true, none, some planGmail⟩),
         .requestSynthesis (.ok "function main()"),
         .submitUtterance "Also append each invoice to Sheets"
            (.ok ⟨true, none, some planSheets⟩)]).workflow.script.isSome = true ∧
    (runEvents (initWizard (handleCreateNew "wf-c3x" 0))
        [.submitUtterance "Email me Gmail invoices daily"
            (.ok ⟨true, none, some planGmail⟩),
         .requestSynthesis (.ok "function main()"),
         .submitUtterance "Also append each invoice to Sheets"
            (.ok ⟨true, none, some planSheets⟩)]).workflow.status
      = WorkflowStatus.Draft ∧
    ¬((runEvents (initWizard (handleCreateNew "wf-c3x" 0))
        [.submitUtterance "Email me Gmail invoices daily"
            (.ok ⟨true, none, some planGmail⟩),
         .requestSynthesis (.ok "function main()"),
         .submitUtterance "Also append each invoice to Sheets"
            (.ok ⟨true, none, some planSheets⟩)]).workflow.status
          = WorkflowStatus.Generated ↔
      (runEvents (initWizard (handleCreateNew "wf-c3x" 0))
        [.submitUtterance "Email me Gmail invoices daily"
            (.ok ⟨true, none, some planGmail⟩),
         .requestSynthesis (.ok "function main()"),
         .submitUtterance "Also append each invoice to Sheets"
            (.ok ⟨true, none, some planSheets⟩)]).workflow.script.isSome = true) := by
  decide

/-- Claim C3, amended.  On every workflow reachable through the core
operations, `status = Generated` implies a script is present, and an absent
script implies `status = Draft`; but a present script no longer forces
`Generated` once a plan is re-accepted after synthesis. -/
theorem c3_status_script_invariant (id : String) (now : Nat) (es : List Event) :
    ((runEvents (initWizard (handleCreateNew id now)) es).workflow.status
        = WorkflowStatus.Generated →
      (runEvents (initWizard (handleCreateNew id now)) es).workflow.script.isSome) ∧
    ((runEvents (initWizard (handleCreateNew id now)) es).workflow.script = none →
      (runEvents (initWizard (handleCreateNew id now)) es).workflow.status
        = WorkflowStatus.Draft) :=
  runEvents_statusScriptOk es (initWizard (handleCreateNew id now))
    ⟨fun hg => absurd hg (by simp [initWizard, handleCreateNew]), fun _ => rfl⟩

/-- Claim C3, witness: after accepting a plan and synthesising, the status is
`Generated` and the invariant yields a present script. -/
theorem c3_witness :
    (runEvents (initWizard (handleCreateNew "wf-c3" 0))
        [.submitUtterance "Send me a daily Gmail summary"
            (.ok ⟨true, none, some planGmail⟩),
         .requestSynthesis (.ok "function main()")]).workflow.status
      = WorkflowStatus.Generated ∧
    (runEvents (initWizard (handleCreateNew "wf-c3" 0))
        [.submitUtterance "Send me a daily Gmail summary"
            (.ok ⟨true, none, some planGmail⟩),
         .requestSynthesis (.ok "function main()")]).workflow.script.isSome :=
  ⟨by decide,
    (c3_status_script_invariant "wf-c3" 0
      [.submitUtterance "Send me a daily Gmail summary"
          (.ok ⟨true, none, some planGmail⟩),
       .requestSynthesis (.ok "function main()")]).1 (by decide)⟩

/-! ## Claim C4 -/

/-- A describe-phase state with a pending clarification question and a typed
reply, about to hit a malformed response. -/
def c4State : WizardState :=
  { step := .Describe
    promptText := "notify me about invoices"
    conversationHistory :=
      [{ role := .user, text := "notify me" },
       { role := .model, text := "Which provider?" }]
    clarificationQuestion := some "Which provider?"
    workflow := handleCreateNew "wf-c4" 0 }

/-- Claim C4, counterexample.  A malformed response does NOT leave the pending
clarification question unchanged: the handler clears it (to `none`) before the
external call, and the thrown decode error skips any restore. -/
theorem c4_counterexample :
    c4State.clarificationQuestion = some "Which provider?" ∧
    (handleGeneratePlan c4State .malformed).1.clarificationQuestion = none ∧
    some "Which provider?" ≠ (none : Option String) := by
  decide

/-- Claim C4, amended.  On a malformed response the conversation buffer, the
input buffer and the workflow (its `plan` and `script` in particular) are left
unchanged and the error is surfaced; only the pending clarification question
is cleared.  A subsequent retry with any response therefore behaves exactly
as the failed attempt would have. -/
theorem c4_malformed_preserves_state (s : WizardState)
    (h : jsTrim s.promptText ≠ "") :
    handleGeneratePlan s .malformed
        = ({ s with clarificationQuestion := none }, .error) ∧
    ∀ r : PlanResponse,
      handleGeneratePlan (handleGeneratePlan s .malformed).1 r
        = handleGeneratePlan s r := by
  refine ⟨generatePlan_malformed s h, fun r => ?_⟩
  rw [generatePlan_malformed s h]
  exact generatePlan_question_irrel s none r h

/-- Claim C4, witness: the amended statement applied to the concrete state. -/
theorem c4_witness :
    jsTrim c4State.promptText ≠ "" ∧
    handleGeneratePlan c4State .malformed
      = ({ c4State with clarificationQuestion := none }, .error) :=
  ⟨by decide, (c4_malformed_preserves_state c4State (by decide)).1⟩

/-! ## Claim C5 -/

/-- Claim C5.  A non-empty utterance answered with `isValid = false` and a
non-empty question keeps the wizard in `Describe`, appends exactly the user
utterance and then the assistant question to the conversation, records the
pending question, clears the input buffer, and leaves the workflow record
untouched. -/
theorem c5_clarification_round (s : WizardState) (r : PlanGenerationResult)
    (q : String)
    (hstep : s.step = WizardStep.Describe)
    (hne : jsTrim s.promptText ≠ "")
    (hv : r.isValid = false)
    (hq : r.question = some q) (hqne : q ≠ "") :
    handleGeneratePlan s (.ok r)
        = ({ s with
              conversationHistory := s.conversationHistory ++
                [({ role := .user, text := s.promptText } : ChatMessage),
                 ({ role := .model, text := q } : ChatMessage)]
              clarificationQuestion := some q
              promptText := "" }, .clarified) ∧
    (handleGeneratePlan s (.ok r)).1.step = WizardStep.Describe ∧
    (handleGeneratePlan s (.ok r)).1.workflow = s.workflow := by
  have h := generatePlan_clarified s r q hne (Or.inl hv) hq hqne
  refine ⟨h, ?_, ?_⟩
  · rw [h]; exact hstep
  · rw [h]

/-- A fresh describe-phase state with the scenario utterance typed in. -/
def freshStateTyped : WizardState :=
  { freshState with promptText := "notify me about invoices" }

/-- Claim C5, witness: the spec's own scenario ("notify me about invoices"
answered with the provider/frequency question), evaluated concretely. -/
theorem c5_witness :
    freshStateTyped.step = WizardStep.Describe ∧
    jsTrim freshStateTyped.promptText ≠ "" ∧
    handleGeneratePlan freshStateTyped
        (.ok ⟨false,
          some "Which email provider, and how often should this check run?",
          none⟩)
      = ({ freshStateTyped with
            conversationHistory := freshStateTyped.conversationHistory ++
              [({ role := .user, text := freshStateTyped.promptText } : ChatMessage),
               ({ role := .model,
                  text := "Which email provider, and how often should this check run?" }
                  : ChatMessage)]
            clarificationQuestion :=
              some "Which email provider, and how often should this check run?"
            promptText := "" }, .clarified) :=
  ⟨rfl, by decide,
    (c5_clarification_round freshStateTyped _
      "Which email provider, and how often should this check run?"
      rfl (by decide) rfl rfl (by decide)).1⟩

/-! ## Claim C6 -/

/-- A state whose input buffer is whitespace-only, with a pending question and
some prior conversation, so that any change would be visible. -/
def c6State : WizardState :=
  { step := .Describe
    promptText := "   "
    conversationHistory := [{ role := .user, text := "x" }]
    clarificationQuestion := some "pending?"
    workflow := handleCreateNew "wf-c6" 0 }

/-- Claim C6, counterexample.  A whitespace-only submission is silently
ignored — the outcome is the early no-op return, not an error — contradicting
"rejected with an EmptyInput error rather than silently ignored". -/
theorem c6_counterexample :
    (handleGeneratePlan c6State (.ok ⟨false, some "why?", none⟩)).2
      = PlanOutcome.noOp ∧
    PlanOutcome.noOp ≠ PlanOutcome.error ∧
    (handleGeneratePlan c6State (.ok ⟨false, some "why?", none⟩)).1 = c6State := by
  decide

/-- Claim C6, amended.  An empty or whitespace-only utterance makes zero
external calls (the result does not depend on the oracle response) and leaves
the conversation and workflow unchanged, but it is silently ignored rather
than rejected with an error. -/
theorem c6_empty_input_ignored (s : WizardState) (r : PlanResponse)
    (h : jsTrim s.promptText = "") :
    handleGeneratePlan s r = (s, .noOp) :=
  generatePlan_of_empty s r h

/-- Claim C6, witness: the amended statement at the whitespace-only state. -/
theorem c6_witness :
    jsTrim c6State.promptText = "" ∧
    handleGeneratePlan c6State .malformed = (c6State, .noOp) :=
  ⟨by decide, c6_empty_input_ignored c6State .malformed (by decide)⟩

/-! ## Claim C7 -/

/-- A review-phase state with an accepted plan and no script yet. -/
def c7State : WizardState :=
  { step := .Review
    promptText := "log invoices"
    conversationHistory := []
    clarificationQuestion := none
    workflow := { handleCreateNew "wf-c7" 0 with plan := some planGmail } }

/-- Claim C7, counterexample.  When the code-generation call returns empty
content, the handler does NOT fail: it stores the empty string as the script,
sets `status` to `Generated` and advances the step to `Deploy`. -/
theorem c7_counterexample :
    c7State.step = WizardStep.Review ∧
    (handleGenerateScript c7State (.ok "")).workflow.script = some "" ∧
    (handleGenerateScript c7State (.ok "")).workflow.status
      = WorkflowStatus.Generated ∧
    (handleGenerateScript c7State (.ok "")).step = WizardStep.Deploy := by
  decide

/-- Claim C7, amended.  When the code-generation call fails (throws), the
wizard state is left entirely unchanged: it remains on `Review` when it was
there, no partial script is stored, and the status is not changed.  (Empty
returned content, however, is stored; see the counterexample.) -/
theorem c7_synthesis_failure_frame (s : WizardState) :
    handleGenerateScript s .failure = s := by
  cases h : s.workflow.plan <;> simp [handleGenerateScript, h]

/-! ## Claim C8 -/

/-- A review-phase state whose workflow already carries a generated script. -/
def c8State : WizardState :=
  { step := .Review
    promptText := ""
    conversationHistory :=
      [{ role := .user, text := "a" }, { role := .model, text := "q" }]
    clarificationQuestion := none
    workflow := { handleCreateNew "wf-c8" 0 with
      plan := some planGmail
      script := some "function run()"
      status := .Generated } }

/-- Claim C8, counterexample.  The refine transition does return to
`Describe`, but it does NOT discard the workflow's script: the script is still
present afterwards. -/
theorem c8_counterexample :
    (handleRefine c8State).step = WizardStep.Describe ∧
    (handleRefine c8State).workflow.script = some "function run()" ∧
    some "function run()" ≠ (none : Option String) := by
  decide

/-- Claim C8, amended.  Refining from `Review` returns the wizard to
`Describe` and changes nothing else: the workflow — script included — the
conversation history, the pending question and the input buffer are all
retained. -/
theorem c8_refine_returns_to_describe (s : WizardState) :
    (handleRefine s).step = WizardStep.Describe ∧
    (handleRefine s).workflow = s.workflow ∧
    (handleRefine s).conversationHistory = s.conversationHistory ∧
    (handleRefine s).clarificationQuestion = s.clarificationQuestion ∧
    (handleRefine s).promptText = s.promptText :=
  ⟨rfl, rfl, rfl, rfl, rfl⟩

/-! ## Claim C9 -/

/-- Claim C9.  When the decoded result is in neither expected shape — not an
accepted plan (`isValid` false or no plan object) and no truthy question, as
with the default decode of empty text — the submission changes nothing on the
workflow, the conversation or the input buffer, surfaces no error, and only
the previously pending clarification question ends up cleared. -/
theorem c9_unexpected_shape_silent (s : WizardState) (r : PlanGenerationResult)
    (hne : jsTrim s.promptText ≠ "")
    (hnv : r.isValid = false ∨ r.plan = none)
    (hq : r.question = none ∨ r.question = some "") :
    handleGeneratePlan s (.ok r)
      = ({ s with clarificationQuestion := none }, .silentIgnore) :=
  generatePlan_silent_aux s r hne hnv hq

/-- A describe-phase state with a pending question and a typed reply. -/
def c9State : WizardState :=
  { step := .Describe
    promptText := "notify me about invoices"
    conversationHistory := [{ role := .user, text := "earlier request" }]
    clarificationQuestion := some "Which provider?"
    workflow := handleCreateNew "wf-c9" 0 }

/-- Claim C9, witness: the decode of the default empty-object payload
(`isValid` falsy, no question, no plan) on a state with a pending question. -/
theorem c9_witness :
    jsTrim c9State.promptText ≠ "" ∧
    handleGeneratePlan c9State (.ok ⟨false, none, none⟩)
      = ({ c9State with clarificationQuestion := none }, .silentIgnore) :=
  ⟨by decide,
    c9_unexpected_shape_silent c9State ⟨false, none, none⟩ (by decide)
      (Or.inl rfl) (Or.inl rfl)⟩

/-! ## Claim C10 -/

/-- Claim C10.  Updating the store replaces exactly the entries whose id
matches the updated workflow's id, position by position, preserving length and
order; deleting by id yields a sublist (relative order preserved) containing
exactly the entries whose id differs. -/
theorem c10_store_update_delete (u : Workflow) (i : String)
    (ws : List Workflow) (n : Nat) :
    (handleUpdateWorkflow u ws).length = ws.length ∧
    (handleUpdateWorkflow u ws)[n]?
      = (ws[n]?).map (fun w => if w.id = u.id then u else w) ∧
    (handleDeleteWorkflow i ws).Sublist ws ∧
    (∀ w : Workflow, w ∈ handleDeleteWorkflow i ws ↔ w ∈ ws ∧ w.id ≠ i) := by
  refine ⟨List.length_map _ _, List.getElem?_map _ _ _, List.filter_sublist _, ?_⟩
  intro w
  simp [handleDeleteWorkflow]

end FlowAI
